import Mathlib

/-!
Verification development for the fplbase input-handling layer
(src/src/input.cpp, namespace fpl). The per-frame input state machine is
embedded shallowly: C++ floats become rationals, C++ maps become functions
into Option, mutation becomes explicit state passing. Platform state owned
by SDL (connected devices, touch-finger enumeration, clock) is passed as
explicit input where a modelled function reads it. Definitions whose bodies
live in the header fplbase/input.h (absent from src) are modelled from the
specification and carry a doc comment saying so.
-/

/-! ## Edge-triggered Control (class Button) -/

/-- State of one digital control, input.h data members of class Button. -/
structure Button where
  is_down : Bool
  went_down : Bool
  went_up : Bool
deriving DecidableEq

/-- Modelled from the spec: the Button default constructor is declared in
fplbase/input.h (not under src). Spec section 3 requires Controls to be
created fresh and zero-initialized: all three flags false. -/
def Button.init : Button := ⟨false, false, false⟩

/-- Button::Update, input.cpp lines 429-436: if currently up and the new
level is down, set went_down; else if currently down and the new level is
up, set went_up; in every case assign the new level to is_down. -/
def Button.update (b : Button) (down : Bool) : Button :=
  if !b.is_down && down then
    { b with went_down := true, is_down := down }
  else if b.is_down && !down then
    { b with went_up := true, is_down := down }
  else
    { b with is_down := down }

/-- Modelled from the spec: Button::AdvanceFrame is defined inline in
fplbase/input.h (not under src). Spec section 4.1: AdvanceFrame clears
went_down and went_up; is_down persists. -/
def Button.advanceFrame (b : Button) : Button :=
  { b with went_down := false, went_up := false }

/-! ## Cardboard trigger latch (class CardboardInput) -/

/-- Trigger-related state of CardboardInput. The eye-transform fields
updated by UpdateCardboardTransforms (JNI calls into the external head
tracker) are disjoint from the trigger flags and are not modelled. -/
structure CardboardInput where
  pending_trigger : Bool
  triggered : Bool
deriving DecidableEq

/-- Modelled from the spec: CardboardInput::OnCardboardTrigger is defined
in fplbase/input.h (not under src). Spec section 4.6: an input event sets
the pending trigger flag. -/
def CardboardInput.onCardboardTrigger (c : CardboardInput) : CardboardInput :=
  { c with pending_trigger := true }

/-- CardboardInput::AdvanceFrame, input.cpp lines 603-610 (the trigger
part; UpdateCardboardTransforms touches only the unmodelled transforms):
if pending_trigger differs from triggered, copy pending_trigger into
triggered and clear pending_trigger; otherwise leave both unchanged. -/
def CardboardInput.advanceFrame (c : CardboardInput) : CardboardInput :=
  if c.pending_trigger != c.triggered then
    { c with triggered := c.pending_trigger, pending_trigger := false }
  else
    c

/-- An interleaving of trigger events and frame advances. -/
inductive CardboardEvent where
  | trigger
  | advance
deriving DecidableEq

def CardboardInput.step (c : CardboardInput) : CardboardEvent → CardboardInput
  | CardboardEvent.trigger => c.onCardboardTrigger
  | CardboardEvent.advance => c.advanceFrame

def CardboardInput.run (c : CardboardInput) (es : List CardboardEvent) : CardboardInput :=
  es.foldl CardboardInput.step c

/-! ## Claim C1 -/

/-- Claim C1: Button.update sets went_down when a press arrives while up,
sets went_up when a release arrives while down, always assigns is_down to
the new level; and on a fresh Button the sequence update true, advanceFrame,
update false, advanceFrame produces exactly the claimed observations. -/
theorem button_update_edge_semantics (b : Button) (d : Bool) :
    ((b.is_down = false → d = true → (b.update d).went_down = true) ∧
     (b.is_down = true → d = false → (b.update d).went_up = true) ∧
     (b.update d).is_down = d) ∧
    ((Button.init.update true).went_down = true ∧
     (Button.init.update true).is_down = true ∧
     (Button.init.update true).went_up = false ∧
     ((Button.init.update true).advanceFrame.went_down = false ∧
      (Button.init.update true).advanceFrame.is_down = true) ∧
     (((Button.init.update true).advanceFrame.update false).went_up = true ∧
      ((Button.init.update true).advanceFrame.update false).is_down = false) ∧
     (((Button.init.update true).advanceFrame.update false).advanceFrame.went_down = false ∧
      ((Button.init.update true).advanceFrame.update false).advanceFrame.went_up = false ∧
      ((Button.init.update true).advanceFrame.update false).advanceFrame.is_down = false)) := by
  constructor
  · refine ⟨?_, ?_, ?_⟩
    · intro h hd
      simp [Button.update, h, hd]
    · intro h hd
      simp [Button.update, h, hd]
    · cases b with
      | mk i gd gu => cases i <;> cases d <;> simp [Button.update]
  · decide

/-- Claim C1 witness: the edge implications and the scenario, discharged at
the fresh button and at a held-down button. -/
theorem button_update_edge_semantics_witness :
    ((Button.init.is_down = false ∧ (Button.init.update true).went_down = true) ∧
     ((Button.update Button.init true).is_down = true ∧
      ((Button.init.update true).update false).went_up = true)) ∧
    (Button.init.update true).is_down = true :=
  ⟨⟨⟨rfl, (button_update_edge_semantics Button.init true).1.1 rfl rfl⟩,
    ⟨rfl, (button_update_edge_semantics (Button.init.update true) false).1.2.1 rfl rfl⟩⟩,
   (button_update_edge_semantics Button.init true).1.2.2⟩

/-! ## Claim C2 -/

/-- Helper: once pending_trigger and triggered are both true, advanceFrame
leaves the state fixed, so triggered stays true on every later frame. -/
theorem cardboard_stuck_iterate (n : Nat) :
    CardboardInput.advanceFrame^[n] ⟨true, true⟩ = ⟨true, true⟩ := by
  induction n with
  | zero => rfl
  | succ k ih => rw [Function.iterate_succ_apply, show CardboardInput.advanceFrame ⟨true, true⟩ = ⟨true, true⟩ from rfl, ih]

/-- Claim C2: the one-frame-latch claim fails on the code. Failing input:
from the initial state, the event sequence trigger, advance, trigger,
advance. The second advance follows one trigger event since the last
promotion (the first advance), so by the claim triggered must be true
immediately after it and false after the next advance. The code instead
reaches pending_trigger = triggered = true, the guard pending != triggered
never fires again, and triggered stays true on every later advance. -/
theorem cardboard_trigger_stuck_latch :
    (CardboardInput.run ⟨false, false⟩
        [CardboardEvent.trigger, CardboardEvent.advance,
         CardboardEvent.trigger, CardboardEvent.advance]) = ⟨true, true⟩ ∧
    (∀ n : Nat,
      (CardboardInput.advanceFrame^[n]
        (CardboardInput.run ⟨false, false⟩
          [CardboardEvent.trigger, CardboardEvent.advance,
           CardboardEvent.trigger, CardboardEvent.advance])).triggered = true) := by
  refine ⟨by decide, ?_⟩
  intro n
  have h : CardboardInput.run ⟨false, false⟩
      [CardboardEvent.trigger, CardboardEvent.advance,
       CardboardEvent.trigger, CardboardEvent.advance] = ⟨true, true⟩ := by decide
  rw [h, cardboard_stuck_iterate]

/-! ## Android gamepad bridge (ANDROID_GAMEPAD section of input.cpp) -/

/-- Android NDK key/motion constants from android/keycodes.h and
android/input.h, which input.cpp includes. -/
def AKEYCODE_DPAD_UP : Int := 19

def AKEYCODE_DPAD_DOWN : Int := 20

def AKEYCODE_DPAD_LEFT : Int := 21

def AKEYCODE_DPAD_RIGHT : Int := 22

def AKEYCODE_DPAD_CENTER : Int := 23

def AKEYCODE_BUTTON_A : Int := 96

def AKEYCODE_BUTTON_B : Int := 97

def AKEYCODE_BUTTON_C : Int := 98

def AKEY_EVENT_ACTION_DOWN : Int := 0

def AKEY_EVENT_ACTION_UP : Int := 1

def AMOTION_EVENT_ACTION_MOVE : Int := 2

/-- Modelled from the spec: the enum Gamepad::GamepadInputButton is declared
in fplbase/input.h (not under src). Spec section 3 fixes the gamepad button
set as the named buttons Up/Down/Left/Right/A/B/C; C++ enum numbering gives
kInvalid = -1, the seven named codes 0..6, and kControlCount, the number of
named controls, equal to 7. GetButton (input.cpp lines 553-557) asserts its
index lies in [0, kControlCount). -/
def Gamepad.kInvalid : Int := -1

def Gamepad.kUp : Int := 0

def Gamepad.kDown : Int := 1

def Gamepad.kLeft : Int := 2

def Gamepad.kRight : Int := 3

def Gamepad.kButtonA : Int := 4

def Gamepad.kButtonB : Int := 5

def Gamepad.kButtonC : Int := 6

def Gamepad.kControlCount : Int := 7

/-- The static table kJavaToGamepadMap of Gamepad::GetGamepadCodeFromJavaKeyCode,
input.cpp lines 571-579: eight (java_keycode, gamepad_code) pairs, with
DPAD_CENTER mapping onto ButtonA. -/
def kJavaToGamepadMap : List (Int × Int) :=
  [(AKEYCODE_DPAD_UP, Gamepad.kUp),
   (AKEYCODE_DPAD_DOWN, Gamepad.kDown),
   (AKEYCODE_DPAD_LEFT, Gamepad.kLeft),
   (AKEYCODE_DPAD_RIGHT, Gamepad.kRight),
   (AKEYCODE_DPAD_CENTER, Gamepad.kButtonA),
   (AKEYCODE_BUTTON_A, Gamepad.kButtonA),
   (AKEYCODE_BUTTON_B, Gamepad.kButtonB),
   (AKEYCODE_BUTTON_C, Gamepad.kButtonC)]

/-- First-match linear scan over a list of (java_keycode, gamepad_code)
pairs; falls through to kInvalid. -/
def lookupJavaKeyCode : List (Int × Int) → Int → Int
  | [], _ => Gamepad.kInvalid
  | p :: rest, k => if p.1 = k then p.2 else lookupJavaKeyCode rest k

/-- Gamepad::GetGamepadCodeFromJavaKeyCode, input.cpp lines 566-586: the
loop runs i from 0 while i < Gamepad::kControlCount (= 7), so it scans only
the first seven entries of the eight-entry table, returning the first
matching gamepad code, else kInvalid. -/
def Gamepad.GetGamepadCodeFromJavaKeyCode (java_keycode : Int) : Int :=
  lookupJavaKeyCode (kJavaToGamepadMap.take Gamepad.kControlCount.toNat) java_keycode

/-- Gamepad state: controller id plus the fixed-size button array indexed
by gamepad code (valid indices 0..kControlCount-1, enforced in C++ by the
assert in Gamepad::GetButton). -/
structure Gamepad where
  controller_id : Int
  button_list : Int → Button

/-- Modelled from the spec: the Gamepad default constructor (input.h, not
under src) zero-initializes: fresh Controls everywhere, controller id 0
until GetGamepad assigns it. -/
def Gamepad.init : Gamepad := ⟨0, fun _ => Button.init⟩

/-- Gamepad::GetButton, input.cpp lines 553-557 (after the range assert). -/
def Gamepad.getButton (g : Gamepad) (index : Int) : Button :=
  g.button_list index

/-- In-place Update of one button of the gamepad button array. -/
def Gamepad.updateButton (g : Gamepad) (index : Int) (down : Bool) : Gamepad :=
  { g with button_list := fun k => if k = index then (g.button_list index).update down else g.button_list k }

/-- Gamepad::AdvanceFrame, input.cpp lines 547-551: AdvanceFrame every
button in the array. -/
def Gamepad.advanceFrame (g : Gamepad) : Gamepad :=
  { g with button_list := fun k => (g.button_list k).advanceFrame }

/-- struct AndroidInputEvent (declared in input.h; field list read off the
uses in input.cpp lines 491-538): device id, event code, control code and
the two float axis values, here rationals. -/
structure AndroidInputEvent where
  device_id : Int
  event_code : Int
  control_code : Int
  x : ℚ
  y : ℚ
deriving DecidableEq

/-- kMaxAndroidEventsPerFrame, input.cpp line 32. -/
def kMaxAndroidEventsPerFrame : Nat := 100

/-- InputSystem::ReceiveGamepadEvent, input.cpp lines 491-500: push the
event onto the back of the shared queue only when the queue currently holds
fewer than kMaxAndroidEventsPerFrame events; otherwise drop it silently. -/
def receiveGamepadEvent (q : List AndroidInputEvent) (e : AndroidInputEvent) :
    List AndroidInputEvent :=
  if q.length < kMaxAndroidEventsPerFrame then q ++ [e] else q

def receiveAll (q : List AndroidInputEvent) (es : List AndroidInputEvent) :
    List AndroidInputEvent :=
  es.foldl receiveGamepadEvent q

/-- The gamepad registry: device id to Gamepad. -/
abbrev GamepadMap : Type := Int → Option Gamepad

/-- InputSystem::GetGamepad, input.cpp lines 320-329: look the device id up;
when absent, insert a default Gamepad, assign its controller id, and return
it. Returns the gamepad together with the possibly grown map. -/
def getGamepad (m : GamepadMap) (device_id : Int) : Gamepad × GamepadMap :=
  match m device_id with
  | some g => (g, m)
  | none =>
      let g : Gamepad := { Gamepad.init with controller_id := device_id }
      (g, fun k => if k = device_id then some g else m k)

/-- The per-event body of the drain loop of InputSystem::HandleGamepadEvents,
input.cpp lines 510-539: resolve/create the gamepad, then dispatch on the
event code; key down/up map the control code through the lookup table and
Update the named button unless the lookup returned kInvalid; motion events
compare each axis against the deadzone threshold with strict inequalities
and Update the four directional buttons; any other event code does nothing.
The threshold kGamepadHatThreshold is a constant from input.h (not under
src); the spec fixes only that it is one fixed deadzone value, so it is a
parameter here. -/
def handleGamepadEvent (thr : ℚ) (m : GamepadMap) (e : AndroidInputEvent) : GamepadMap :=
  let gm := getGamepad m e.device_id
  let g := gm.1
  let m1 := gm.2
  let g2 :=
    if e.event_code = AKEY_EVENT_ACTION_DOWN then
      let button_index := Gamepad.GetGamepadCodeFromJavaKeyCode e.control_code
      if button_index ≠ Gamepad.kInvalid then g.updateButton button_index true else g
    else if e.event_code = AKEY_EVENT_ACTION_UP then
      let button_index := Gamepad.GetGamepadCodeFromJavaKeyCode e.control_code
      if button_index ≠ Gamepad.kInvalid then g.updateButton button_index false else g
    else if e.event_code = AMOTION_EVENT_ACTION_MOVE then
      let left := decide (e.x < -thr)
      let right := decide (e.x > thr)
      let up := decide (e.y < -thr)
      let down := decide (e.y > thr)
      (((g.updateButton Gamepad.kLeft left).updateButton Gamepad.kRight right).updateButton
          Gamepad.kUp up).updateButton Gamepad.kDown down
    else g
  fun k => if k = e.device_id then some g2 else m1 k

/-- The while loop of InputSystem::HandleGamepadEvents, input.cpp lines
506-540: pop the front event and handle it until the queue is empty,
returning the final registry and the remaining queue. -/
def handleLoop (thr : ℚ) (m : GamepadMap) : List AndroidInputEvent → GamepadMap × List AndroidInputEvent
  | [] => (m, [])
  | e :: rest => handleLoop thr (handleGamepadEvent thr m e) rest

/-- InputSystem::HandleGamepadEvents, input.cpp lines 503-544: drain the
queue through the loop, then clear it (the swap with an empty queue). -/
def handleGamepadEvents (thr : ℚ) (m : GamepadMap) (q : List AndroidInputEvent) :
    GamepadMap × List AndroidInputEvent :=
  let r := handleLoop thr m q
  (r.1, [])

/-! ## Claim C3 -/

/-- Helper: a Button.update always assigns is_down the new level. -/
theorem Button.update_is_down (b : Button) (d : Bool) : (b.update d).is_down = d := by
  cases b with
  | mk i gd gu => cases i <;> cases d <;> simp [Button.update]

/-- Helper: folding receiveGamepadEvent keeps the first
kMaxAndroidEventsPerFrame events and drops the rest. -/
theorem receiveAll_take (es : List AndroidInputEvent) :
    ∀ q : List AndroidInputEvent, q.length ≤ kMaxAndroidEventsPerFrame →
      receiveAll q es = (q ++ es).take kMaxAndroidEventsPerFrame := by
  induction es with
  | nil =>
      intro q hq
      simp [receiveAll, List.take_of_length_le hq]
  | cons e rest ih =>
      intro q hq
      by_cases h : q.length < kMaxAndroidEventsPerFrame
      · have step : receiveGamepadEvent q e = q ++ [e] := by
          simp [receiveGamepadEvent, h]
        have hlen : (q ++ [e]).length ≤ kMaxAndroidEventsPerFrame := by
          simp [List.length_append]
          omega
        calc receiveAll q (e :: rest) = receiveAll (receiveGamepadEvent q e) rest := rfl
          _ = receiveAll (q ++ [e]) rest := by rw [step]
          _ = ((q ++ [e]) ++ rest).take kMaxAndroidEventsPerFrame := ih (q ++ [e]) hlen
          _ = (q ++ (e :: rest)).take kMaxAndroidEventsPerFrame := by
              rw [List.append_assoc]
              rfl
      · have hfull : q.length = kMaxAndroidEventsPerFrame := by omega
        have step : receiveGamepadEvent q e = q := by
          simp [receiveGamepadEvent, h]
        have expand : ∀ l : List AndroidInputEvent,
            (q ++ l).take kMaxAndroidEventsPerFrame = q := by
          intro l
          rw [List.take_append_eq_append_take, hfull]
          simp [List.take_of_length_le (le_of_eq hfull)]
        calc receiveAll q (e :: rest) = receiveAll (receiveGamepadEvent q e) rest := rfl
          _ = receiveAll q rest := by rw [step]
          _ = (q ++ rest).take kMaxAndroidEventsPerFrame := ih q (le_of_eq hfull)
          _ = q := expand rest
          _ = (q ++ (e :: rest)).take kMaxAndroidEventsPerFrame := (expand (e :: rest)).symm

/-- Helper: the drain loop folds the handler over the queued events in
order and returns an empty queue. -/
theorem handleLoop_foldl (thr : ℚ) (q : List AndroidInputEvent) :
    ∀ m : GamepadMap, handleLoop thr m q = (q.foldl (handleGamepadEvent thr) m, []) := by
  induction q with
  | nil => intro m; rfl
  | cons e rest ih =>
      intro m
      calc handleLoop thr m (e :: rest)
          = handleLoop thr (handleGamepadEvent thr m e) rest := rfl
        _ = (rest.foldl (handleGamepadEvent thr) (handleGamepadEvent thr m e), []) :=
            ih (handleGamepadEvent thr m e)
        _ = ((e :: rest).foldl (handleGamepadEvent thr) m, []) := rfl

/-- Claim C3: the pending gamepad event queue never exceeds
kMaxAndroidEventsPerFrame (= 100) events; a push against a full queue
leaves it unchanged; one drain folds the handler over every queued event in
FIFO order and empties the queue; and pushing 105 events into an empty
queue keeps exactly the first 100, dropping 5. -/
theorem gamepad_queue_bounded_fifo (thr : ℚ) :
    (∀ (q : List AndroidInputEvent) (e : AndroidInputEvent),
        q.length ≤ kMaxAndroidEventsPerFrame →
        (receiveGamepadEvent q e).length ≤ kMaxAndroidEventsPerFrame) ∧
    (∀ (q : List AndroidInputEvent) (e : AndroidInputEvent),
        q.length = kMaxAndroidEventsPerFrame → receiveGamepadEvent q e = q) ∧
    (∀ (m : GamepadMap) (q : List AndroidInputEvent),
        handleGamepadEvents thr m q = (q.foldl (handleGamepadEvent thr) m, [])) ∧
    (∀ es : List AndroidInputEvent, es.length = kMaxAndroidEventsPerFrame + 5 →
        receiveAll [] es = es.take kMaxAndroidEventsPerFrame ∧
        (receiveAll [] es).length = kMaxAndroidEventsPerFrame ∧
        es.length - (receiveAll [] es).length = 5) := by
  refine ⟨?_, ?_, ?_, ?_⟩
  · intro q e hq
    by_cases h : q.length < kMaxAndroidEventsPerFrame
    · simp [receiveGamepadEvent, h]
      omega
    · simp [receiveGamepadEvent, h]
      omega
  · intro q e hq
    have h : ¬ q.length < kMaxAndroidEventsPerFrame := by omega
    simp [receiveGamepadEvent, h]
  · intro m q
    rw [handleGamepadEvents, handleLoop_foldl]
  · intro es hes
    have h1 : receiveAll [] es = es.take kMaxAndroidEventsPerFrame := by
      have := receiveAll_take es [] (by simp [kMaxAndroidEventsPerFrame])
      simpa using this
    have h2 : (receiveAll [] es).length = kMaxAndroidEventsPerFrame := by
      rw [h1, List.length_take]
      omega
    exact ⟨h1, h2, by omega⟩

/-- Claim C3 witness: capacity, full-queue drop, drain and the 105-push
scenario, at a concrete event. -/
theorem gamepad_queue_bounded_fifo_witness :
    ((List.replicate 100 (⟨0, 0, 0, 0, 0⟩ : AndroidInputEvent)).length =
        kMaxAndroidEventsPerFrame ∧
      receiveGamepadEvent (List.replicate 100 (⟨0, 0, 0, 0, 0⟩ : AndroidInputEvent))
          ⟨0, 0, 0, 0, 0⟩ =
        List.replicate 100 (⟨0, 0, 0, 0, 0⟩ : AndroidInputEvent)) ∧
    ((List.replicate 105 (⟨0, 0, 0, 0, 0⟩ : AndroidInputEvent)).length =
        kMaxAndroidEventsPerFrame + 5 ∧
      receiveAll [] (List.replicate 105 (⟨0, 0, 0, 0, 0⟩ : AndroidInputEvent)) =
        (List.replicate 105 (⟨0, 0, 0, 0, 0⟩ : AndroidInputEvent)).take
          kMaxAndroidEventsPerFrame) ∧
    handleGamepadEvents 0 (fun _ => none) [] =
      (([] : List AndroidInputEvent).foldl (handleGamepadEvent 0) (fun _ => none), []) :=
  ⟨⟨by simp [kMaxAndroidEventsPerFrame],
    (gamepad_queue_bounded_fifo 0).2.1 _ _ (by simp [kMaxAndroidEventsPerFrame])⟩,
   ⟨by simp [kMaxAndroidEventsPerFrame],
    ((gamepad_queue_bounded_fifo 0).2.2.2 _ (by simp [kMaxAndroidEventsPerFrame])).1⟩,
   (gamepad_queue_bounded_fifo 0).2.2.1 _ _⟩

/-! ## Claim C4 -/

/-- Helper: reading the button just updated. -/
theorem Gamepad.getButton_updateButton_self (g : Gamepad) (i : Int) (d : Bool) :
    (g.updateButton i d).getButton i = (g.getButton i).update d := by
  simp [Gamepad.updateButton, Gamepad.getButton]

/-- Helper: updating one button leaves the others unchanged. -/
theorem Gamepad.getButton_updateButton_ne (g : Gamepad) (i j : Int) (d : Bool)
    (h : j ≠ i) : (g.updateButton i d).getButton j = g.getButton j := by
  simp [Gamepad.updateButton, Gamepad.getButton, h]

/-- Claim C4: handling a gamepad motion event updates the four directional
buttons by strict comparison of each axis with the deadzone threshold:
kLeft to x < -thr, kRight to x > thr, kUp to y < -thr, kDown to y > thr.
Consequently x = -thr - eps (eps > 0, thr nonnegative) gives kLeft true and
kRight false, a value strictly inside the deadzone gives both false, and
x exactly equal to thr does not set kRight. -/
theorem gamepad_deadzone_strict (thr : ℚ) (m : GamepadMap) (e : AndroidInputEvent)
    (hmove : e.event_code = AMOTION_EVENT_ACTION_MOVE) :
    ∃ g2 : Gamepad, handleGamepadEvent thr m e e.device_id = some g2 ∧
      ((g2.getButton Gamepad.kLeft).is_down = decide (e.x < -thr) ∧
       (g2.getButton Gamepad.kRight).is_down = decide (e.x > thr) ∧
       (g2.getButton Gamepad.kUp).is_down = decide (e.y < -thr) ∧
       (g2.getButton Gamepad.kDown).is_down = decide (e.y > thr)) ∧
      (∀ eps : ℚ, 0 ≤ thr → 0 < eps → e.x = -thr - eps →
        (g2.getButton Gamepad.kLeft).is_down = true ∧
        (g2.getButton Gamepad.kRight).is_down = false) ∧
      (-thr < e.x → e.x < thr →
        (g2.getButton Gamepad.kLeft).is_down = false ∧
        (g2.getButton Gamepad.kRight).is_down = false) ∧
      (e.x = thr → (g2.getButton Gamepad.kRight).is_down = false) := by
  have hne0 : e.event_code ≠ AKEY_EVENT_ACTION_DOWN := by
    rw [hmove]; decide
  have hne1 : e.event_code ≠ AKEY_EVENT_ACTION_UP := by
    rw [hmove]; decide
  set g : Gamepad := (getGamepad m e.device_id).1 with hg
  set g2 : Gamepad :=
    (((g.updateButton Gamepad.kLeft (decide (e.x < -thr))).updateButton Gamepad.kRight
        (decide (e.x > thr))).updateButton Gamepad.kUp (decide (e.y < -thr))).updateButton
      Gamepad.kDown (decide (e.y > thr)) with hg2
  have happ : handleGamepadEvent thr m e e.device_id = some g2 := by
    simp only [handleGamepadEvent, hmove]
    norm_num [AMOTION_EVENT_ACTION_MOVE, AKEY_EVENT_ACTION_DOWN, AKEY_EVENT_ACTION_UP]
  have hleft : (g2.getButton Gamepad.kLeft).is_down = decide (e.x < -thr) := by
    rw [hg2]
    rw [Gamepad.getButton_updateButton_ne _ _ _ _ (by decide)]
    rw [Gamepad.getButton_updateButton_ne _ _ _ _ (by decide)]
    rw [Gamepad.getButton_updateButton_ne _ _ _ _ (by decide)]
    rw [Gamepad.getButton_updateButton_self, Button.update_is_down]
  have hright : (g2.getButton Gamepad.kRight).is_down = decide (e.x > thr) := by
    rw [hg2]
    rw [Gamepad.getButton_updateButton_ne _ _ _ _ (by decide)]
    rw [Gamepad.getButton_updateButton_ne _ _ _ _ (by decide)]
    rw [Gamepad.getButton_updateButton_self, Button.update_is_down]
  have hup : (g2.getButton Gamepad.kUp).is_down = decide (e.y < -thr) := by
    rw [hg2]
    rw [Gamepad.getButton_updateButton_ne _ _ _ _ (by decide)]
    rw [Gamepad.getButton_updateButton_self, Button.update_is_down]
  have hdown : (g2.getButton Gamepad.kDown).is_down = decide (e.y > thr) := by
    rw [hg2]
    rw [Gamepad.getButton_updateButton_self, Button.update_is_down]
  refine ⟨g2, happ, ⟨hleft, hright, hup, hdown⟩, ?_, ?_, ?_⟩
  · intro eps hthr heps hx
    constructor
    · rw [hleft]
      simp only [decide_eq_true_eq]
      rw [hx]
      linarith
    · rw [hright]
      simp only [decide_eq_false_iff_not]
      rw [hx]
      intro hcon
      simp only [gt_iff_lt] at hcon
      linarith
  · intro hlo hhi
    constructor
    · rw [hleft]
      simp only [decide_eq_false_iff_not]
      intro hcon
      linarith
    · rw [hright]
      simp only [decide_eq_false_iff_not]
      intro hcon
      simp only [gt_iff_lt] at hcon
      linarith
  · intro hx
    rw [hright]
    simp only [decide_eq_false_iff_not]
    rw [hx]
    exact lt_irrefl thr

/-- Claim C4 witness: a motion event with x strictly below the negative
threshold and y inside the deadzone, at threshold one half. -/
theorem gamepad_deadzone_strict_witness :
    ((⟨7, 2, 0, -1, 0⟩ : AndroidInputEvent).event_code = AMOTION_EVENT_ACTION_MOVE) ∧
    (∃ g2 : Gamepad,
      handleGamepadEvent (1/2) (fun _ => none) ⟨7, 2, 0, -1, 0⟩
          (⟨7, 2, 0, -1, 0⟩ : AndroidInputEvent).device_id = some g2 ∧
      ((g2.getButton Gamepad.kLeft).is_down =
          decide ((⟨7, 2, 0, -1, 0⟩ : AndroidInputEvent).x < -(1/2 : ℚ)) ∧
       (g2.getButton Gamepad.kRight).is_down =
          decide ((⟨7, 2, 0, -1, 0⟩ : AndroidInputEvent).x > (1/2 : ℚ)) ∧
       (g2.getButton Gamepad.kUp).is_down =
          decide ((⟨7, 2, 0, -1, 0⟩ : AndroidInputEvent).y < -(1/2 : ℚ)) ∧
       (g2.getButton Gamepad.kDown).is_down =
          decide ((⟨7, 2, 0, -1, 0⟩ : AndroidInputEvent).y > (1/2 : ℚ))) ∧
      (∀ eps : ℚ, 0 ≤ (1/2 : ℚ) → 0 < eps →
        (⟨7, 2, 0, -1, 0⟩ : AndroidInputEvent).x = -(1/2) - eps →
        (g2.getButton Gamepad.kLeft).is_down = true ∧
        (g2.getButton Gamepad.kRight).is_down = false) ∧
      (-(1/2 : ℚ) < (⟨7, 2, 0, -1, 0⟩ : AndroidInputEvent).x →
        (⟨7, 2, 0, -1, 0⟩ : AndroidInputEvent).x < (1/2 : ℚ) →
        (g2.getButton Gamepad.kLeft).is_down = false ∧
        (g2.getButton Gamepad.kRight).is_down = false) ∧
      ((⟨7, 2, 0, -1, 0⟩ : AndroidInputEvent).x = (1/2 : ℚ) →
        (g2.getButton Gamepad.kRight).is_down = false)) :=
  ⟨rfl, gamepad_deadzone_strict (1/2) (fun _ => none) ⟨7, 2, 0, -1, 0⟩ rfl⟩

/-! ## Claim C6 -/

/-- Claim C6: the keycode-table totality claim fails on the code. The seven
entries the lookup loop reaches map as listed (DPAD_CENTER onto ButtonA),
and an unmapped keycode (here 4, the Android BACK key) is ignored via
kInvalid; but the loop bound kControlCount = 7 is one short of the 8-entry
table, so AKEYCODE_BUTTON_C falls off the scanned prefix and also maps to
kInvalid instead of the claimed kButtonC: its events are dropped. -/
theorem gamepad_keycode_table_bug :
    Gamepad.GetGamepadCodeFromJavaKeyCode AKEYCODE_DPAD_UP = Gamepad.kUp ∧
    Gamepad.GetGamepadCodeFromJavaKeyCode AKEYCODE_DPAD_DOWN = Gamepad.kDown ∧
    Gamepad.GetGamepadCodeFromJavaKeyCode AKEYCODE_DPAD_LEFT = Gamepad.kLeft ∧
    Gamepad.GetGamepadCodeFromJavaKeyCode AKEYCODE_DPAD_RIGHT = Gamepad.kRight ∧
    Gamepad.GetGamepadCodeFromJavaKeyCode AKEYCODE_DPAD_CENTER = Gamepad.kButtonA ∧
    Gamepad.GetGamepadCodeFromJavaKeyCode AKEYCODE_BUTTON_A = Gamepad.kButtonA ∧
    Gamepad.GetGamepadCodeFromJavaKeyCode AKEYCODE_BUTTON_B = Gamepad.kButtonB ∧
    Gamepad.GetGamepadCodeFromJavaKeyCode 4 = Gamepad.kInvalid ∧
    Gamepad.GetGamepadCodeFromJavaKeyCode AKEYCODE_BUTTON_C = Gamepad.kInvalid ∧
    Gamepad.kInvalid ≠ Gamepad.kButtonC := by
  decide

/-! ## Joystick devices -/

/-- kJoystickAxisRange, input.cpp line 36: maximum range (plus or minus)
generated by joystick axis events. -/
def kJoystickAxisRange : ℚ := 32767

/-- The normalized value InputSystem::HandleJoystickEvent passes to
JoystickAxis::Update for a raw axis event, input.cpp line 246: the raw
16-bit value divided by kJoystickAxisRange. -/
def joystickAxisValue (raw : Int) : ℚ :=
  (raw : ℚ) / kJoystickAxisRange

/-- Modelled from the spec: class JoystickAxis (input.h, not under src).
Spec section 4.2: Update sets the value directly; AdvanceFrame is a no-op
placeholder kept for symmetry with Control. -/
structure JoystickAxis where
  value : ℚ
deriving DecidableEq

def JoystickAxis.update (a : JoystickAxis) (x : ℚ) : JoystickAxis :=
  { a with value := x }

def JoystickAxis.advanceFrame (a : JoystickAxis) : JoystickAxis := a

/-- Modelled from the spec: class JoystickHat (input.h, not under src).
Spec section 3: a 2D direction with components in -1, 0, 1; Update sets it;
the per-frame reset is a no-op placeholder like the Axis one. -/
structure JoystickHat where
  value : ℚ × ℚ
deriving DecidableEq

def JoystickHat.update (h : JoystickHat) (v : ℚ × ℚ) : JoystickHat :=
  { h with value := v }

def JoystickHat.advanceFrame (h : JoystickHat) : JoystickHat := h

/-- class Joystick data members (input.h declarations, bodies of the
accessors in input.cpp lines 438-470): an opaque SDL handle (None models
the null pointer) and the three growable control lists. -/
structure Joystick where
  joystick_data : Option Int
  button_list : List Button
  axis_list : List JoystickAxis
  hat_list : List JoystickHat

/-- Modelled from the spec: the Joystick default constructor (input.h, not
under src). Spec section 3: created on first reference with a null handle
and empty control collections. -/
def Joystick.init : Joystick := ⟨none, [], [], []⟩

/-- Joystick::set_joystick_data (accessor declared in input.h; the only
uses are input.cpp lines 400 and 408). -/
def Joystick.set_joystick_data (j : Joystick) (d : Option Int) : Joystick :=
  { j with joystick_data := d }

/-- Joystick::AdvanceFrame, input.cpp lines 460-470: reset the per-frame
input on every button, axis and hat. -/
def Joystick.advanceFrame (j : Joystick) : Joystick :=
  { j with
      button_list := j.button_list.map Button.advanceFrame,
      axis_list := j.axis_list.map JoystickAxis.advanceFrame,
      hat_list := j.hat_list.map JoystickHat.advanceFrame }

/-- The joystick registry joystick_map_: SDL instance id to Joystick. -/
abbrev JoystickMap : Type := Int → Option Joystick

/-- InputSystem::CloseOpenJoysticks, input.cpp lines 404-410: close every
open SDL handle and null out joystick_data on every registry entry; no
entry is erased. -/
def CloseOpenJoysticks (m : JoystickMap) : JoystickMap :=
  fun id => (m id).map (fun j => j.set_joystick_data none)

/-- One iteration of the loop of InputSystem::OpenConnectedJoysticks,
input.cpp lines 386-401, for the connected device c = (instance id, SDL
handle): insert a fresh Joystick if the instance id is unknown, then bind
the SDL handle into the entry. -/
def openOneJoystick (m : JoystickMap) (c : Int × Int) : JoystickMap :=
  let m1 : JoystickMap :=
    match m c.1 with
    | some _ => m
    | none => fun k => if k = c.1 then some Joystick.init else m k
  fun k => if k = c.1 then (m1 c.1).map (fun j => j.set_joystick_data (some c.2)) else m1 k

/-- InputSystem::OpenConnectedJoysticks, input.cpp lines 381-402. The SDL
enumeration (SDL_NumJoysticks, SDL_JoystickOpen, SDL_JoystickInstanceID)
is platform state, passed in as the list of currently connected devices,
each an (instance id, handle) pair. -/
def OpenConnectedJoysticks (connected : List (Int × Int)) (m : JoystickMap) : JoystickMap :=
  connected.foldl openOneJoystick m

/-- InputSystem::UpdateConnectedJoystickList, input.cpp lines 376-379:
close everything, then re-open what the platform reports as connected.
This is the handler for both device-added and device-removed events
(HandleJoystickEvent, input.cpp lines 238-241). -/
def UpdateConnectedJoystickList (connected : List (Int × Int)) (m : JoystickMap) : JoystickMap :=
  OpenConnectedJoysticks connected (CloseOpenJoysticks m)

/-! ## Claim C5 -/

/-- Claim C5: the normalization-stays-in-range claim fails on the code.
SDL axis values span the full signed 16-bit range [-32768, 32767], but the
code divides by the full-scale constant 32767 (kJoystickAxisRange), so the
extreme raw value -32768 is mapped strictly below -1, contradicting the
comment at input.cpp line 243 that axis data is normalized to [-1.0, 1.0].
Both endpoints that do satisfy the claim are also evaluated. -/
theorem joystick_axis_normalization_bug :
    joystickAxisValue (-32768) < -1 ∧
    joystickAxisValue (-32768) = -(32768 / 32767 : ℚ) ∧
    joystickAxisValue (-32767) = -1 ∧
    joystickAxisValue 32767 = 1 := by
  refine ⟨?_, ?_, ?_, ?_⟩ <;> norm_num [joystickAxisValue, kJoystickAxisRange]

/-! ## Claim C7 -/

/-- Helper: opening device c touches no registry entry other than c. -/
theorem openOneJoystick_ne (m : JoystickMap) (c : Int × Int) (k : Int) (hk : k ≠ c.1) :
    openOneJoystick m c k = m k := by
  cases hm : m c.1 <;> simp [openOneJoystick, hm, hk]

/-- Helper: opening device c over an existing entry rebinds only the
handle. -/
theorem openOneJoystick_eq (m : JoystickMap) (c : Int × Int) (j : Joystick)
    (hm : m c.1 = some j) :
    openOneJoystick m c c.1 = some (j.set_joystick_data (some c.2)) := by
  simp [openOneJoystick, hm]

/-- Helper: the re-open pass preserves every pre-existing registry entry,
keeps its three control lists intact, leaves the handle alone when the
instance id is not among the connected devices, and rebinds it to the
enumerated handle when it is (ids assumed distinct, as SDL instance ids
are). -/
theorem openConnected_entry (connected : List (Int × Int)) :
    ∀ (m : JoystickMap) (id : Int) (j : Joystick), m id = some j →
      ∃ j2 : Joystick, OpenConnectedJoysticks connected m id = some j2 ∧
        j2.button_list = j.button_list ∧
        j2.axis_list = j.axis_list ∧
        j2.hat_list = j.hat_list ∧
        (id ∉ connected.map Prod.fst → j2.joystick_data = j.joystick_data) ∧
        (∀ hdl : Int, (connected.map Prod.fst).Nodup → (id, hdl) ∈ connected →
          j2.joystick_data = some hdl) := by
  induction connected with
  | nil =>
      intro m id j hj
      exact ⟨j, hj, rfl, rfl, rfl, fun _ => rfl, fun hdl _ hmem => absurd hmem (by simp)⟩
  | cons c rest ih =>
      intro m id j hj
      by_cases hc : c.1 = id
      · have hstep : openOneJoystick m c id = some (j.set_joystick_data (some c.2)) := by
          rw [← hc]
          exact openOneJoystick_eq m c j (hc ▸ hj)
        obtain ⟨j2, hj2, hb, ha, hh, hnot, hlook⟩ :=
          ih (openOneJoystick m c) id (j.set_joystick_data (some c.2)) hstep
        refine ⟨j2, hj2, hb, ha, hh, ?_, ?_⟩
        · intro hmem
          exfalso
          exact hmem (by simp [← hc])
        · intro hdl hnd hmem
          have hnotrest : id ∉ rest.map Prod.fst := by
            simp only [List.map_cons, List.nodup_cons] at hnd
            exact hc ▸ hnd.1
          rcases List.mem_cons.mp hmem with hce | hrest
          · have : c.2 = hdl := by
              have : c = (id, hdl) := hce.symm
              rw [this]
            rw [hnot hnotrest]
            simp [Joystick.set_joystick_data, this]
          · exfalso
            exact hnotrest (by exact List.mem_map.mpr ⟨(id, hdl), hrest, rfl⟩)
      · have hstep : openOneJoystick m c id = some j := by
          rw [openOneJoystick_ne m c id (fun h => hc h.symm)]
          exact hj
        obtain ⟨j2, hj2, hb, ha, hh, hnot, hlook⟩ := ih (openOneJoystick m c) id j hstep
        refine ⟨j2, hj2, hb, ha, hh, ?_, ?_⟩
        · intro hmem
          apply hnot
          intro hrest
          exact hmem (by simp [List.mem_map] at hrest ⊢; exact Or.inr hrest)
        · intro hdl hnd hmem
          rcases List.mem_cons.mp hmem with hce | hrest
          · exfalso
            exact hc (by rw [← hce])
          · exact hlook hdl (by simp only [List.map_cons, List.nodup_cons] at hnd; exact hnd.2) hrest

/-- Claim C7: re-enumerating connected devices (the handler for both
device-added and device-removed events) never erases a registry entry: a
Joystick known before the update is still present afterwards with its
button, axis and hat lists untouched; its handle is null when the device is
no longer connected and is rebound to the enumerated SDL handle when a
device with the same instance id is connected again. -/
theorem joystick_registry_persistence (m : JoystickMap) (connected : List (Int × Int))
    (id : Int) (j : Joystick) (hj : m id = some j) :
    ∃ j2 : Joystick, UpdateConnectedJoystickList connected m id = some j2 ∧
      j2.button_list = j.button_list ∧
      j2.axis_list = j.axis_list ∧
      j2.hat_list = j.hat_list ∧
      (id ∉ connected.map Prod.fst → j2.joystick_data = none) ∧
      (∀ hdl : Int, (connected.map Prod.fst).Nodup → (id, hdl) ∈ connected →
        j2.joystick_data = some hdl) := by
  have hclosed : CloseOpenJoysticks m id = some (j.set_joystick_data none) := by
    simp [CloseOpenJoysticks, hj]
  obtain ⟨j2, hj2, hb, ha, hh, hnot, hlook⟩ :=
    openConnected_entry connected (CloseOpenJoysticks m) id (j.set_joystick_data none) hclosed
  exact ⟨j2, hj2, hb, ha, hh, fun hmem => hnot hmem, hlook⟩

/-- Claim C7 witness: a registry holding joystick 3 with one button, after
a re-enumeration that reports device 3 connected with handle 9. -/
theorem joystick_registry_persistence_witness :
    ((fun k => if k = 3 then some (⟨some 5, [Button.init], [], []⟩ : Joystick)
        else none) : JoystickMap) 3 = some ⟨some 5, [Button.init], [], []⟩ ∧
    (∃ j2 : Joystick,
      UpdateConnectedJoystickList [(3, 9)]
          (fun k => if k = 3 then some (⟨some 5, [Button.init], [], []⟩ : Joystick)
            else none) 3 = some j2 ∧
      j2.button_list = [Button.init] ∧
      j2.axis_list = [] ∧
      j2.hat_list = [] ∧
      ((3 : Int) ∉ ([(3, 9)] : List (Int × Int)).map Prod.fst → j2.joystick_data = none) ∧
      (∀ hdl : Int, (([(3, 9)] : List (Int × Int)).map Prod.fst).Nodup →
        ((3 : Int), hdl) ∈ ([(3, 9)] : List (Int × Int)) → j2.joystick_data = some hdl)) :=
  ⟨by simp,
   joystick_registry_persistence _ [(3, 9)] 3 ⟨some 5, [Button.init], [], []⟩ (by simp)⟩

/-! ## Pointers, text events and the InputSystem aggregate -/

/-- struct InputPointer (declared in input.h; field list read off the uses
in input.cpp lines 108-109, 172-173, 182-183, 332-348, 365-369). -/
structure Pointer where
  id : Int
  mousepos : Int × Int
  mousedelta : Int × Int
  used : Bool
deriving DecidableEq

/-- TextInputEvent, input.cpp lines 657-714: a tagged union with exactly
one valid payload shape per tag (the cross-tag constructors assert). -/
inductive TextInputEvent where
  | key (state : Bool) (key_repeat : Bool) (symbol : Int) (modifier : Int)
  | edit (text : String) (start : Int) (length : Int)
  | text (content : String)

/-- Modify the element at one index of a list, as C++ indexing does;
out-of-range indices leave the list unchanged. -/
def listModify (f : α → α) : Nat → List α → List α
  | _, [] => []
  | 0, a :: as => f a :: as
  | n + 1, a :: as => a :: listModify f n as

/-- The InputSystem state that the modelled fragment touches. SDL frame
timing (start_time_, last_millis_, frame_time_ come from the external
SDL_GetTicks clock), the minimized flags and the app-event callback list
are outside the modelled fragment. The pointer-button Controls live, in
C++, inside button_map_ at a reserved offset of logical ids; the offset
constant is declared in input.h (not under src), so that slice of the
button map is modelled as its own map pointer_buttons, per the spec notion
of a pointer-button space of Controls (spec section 4.3). -/
structure InputSystem where
  button_map : Int → Option Button
  pointer_buttons : Nat → Option Button
  pointers : List Pointer
  joystick_map : JoystickMap
  gamepad_map : GamepadMap
  gamepad_queue : List AndroidInputEvent
  mousewheel_delta : Int × Int
  record_text_input : Bool
  text_input_events : List TextInputEvent
  exit_requested : Bool
  cardboard : CardboardInput
  frames : Nat

/-- InputSystem::AdvanceFrame, input.cpp lines 87-233, specialized to a
tick in which the platform delivers no events (the SDL_PollEvent loop runs
zero iterations): increment the frame counter (the clock reads are outside
the model), zero the mousewheel delta, AdvanceFrame every Control in the
button map (the pointer-button slice included), zero every pointer delta,
AdvanceFrame every Joystick and Gamepad, drain the gamepad bridge queue,
clear the text-input log unless recording, and finally AdvanceFrame the
cardboard input. -/
def InputSystem.advanceFrameNoEvents (thr : ℚ) (s : InputSystem) : InputSystem :=
  { button_map := fun k => (s.button_map k).map Button.advanceFrame,
    pointer_buttons := fun k => (s.pointer_buttons k).map Button.advanceFrame,
    pointers := s.pointers.map (fun p => { p with mousedelta := (0, 0) }),
    joystick_map := fun k => (s.joystick_map k).map Joystick.advanceFrame,
    gamepad_map :=
      (handleGamepadEvents thr (fun k => (s.gamepad_map k).map Gamepad.advanceFrame)
        s.gamepad_queue).1,
    gamepad_queue :=
      (handleGamepadEvents thr (fun k => (s.gamepad_map k).map Gamepad.advanceFrame)
        s.gamepad_queue).2,
    mousewheel_delta := (0, 0),
    record_text_input := s.record_text_input,
    text_input_events := if s.record_text_input then s.text_input_events else [],
    exit_requested := s.exit_requested,
    cardboard := s.cardboard.advanceFrame,
    frames := s.frames + 1 }

/-- InputSystem::GetButton, input.cpp lines 300-304: look the logical id
up; when absent, insert a fresh Button and return it, with the grown map. -/
def InputSystem.GetButton (s : InputSystem) (button : Int) : Button × InputSystem :=
  match s.button_map button with
  | some b => (b, s)
  | none =>
      (Button.init,
       { s with button_map := fun k => if k = button then some Button.init else s.button_map k })

/-- InputSystem::GetJoystick, input.cpp lines 314-318: a pure lookup that
asserts the id is present; None models the assertion failure. It never
inserts. -/
def InputSystem.GetJoystick (s : InputSystem) (joystick_id : Int) : Option Joystick :=
  s.joystick_map joystick_id

/-- An InputSystem with nothing registered, used by concrete witnesses. -/
def emptyInputSystem : InputSystem :=
  { button_map := fun _ => none,
    pointer_buttons := fun _ => none,
    pointers := [],
    joystick_map := fun _ => none,
    gamepad_map := fun _ => none,
    gamepad_queue := [],
    mousewheel_delta := (0, 0),
    record_text_input := false,
    text_input_events := [],
    exit_requested := false,
    cardboard := ⟨false, false⟩,
    frames := 0 }

/-! ## Claim C8 -/

/-- Claim C8: two AdvanceFrame calls with no intervening platform events
(and hence an empty bridge queue) leave every Control in the button map,
the pointer-button slice, every Joystick and every Gamepad with both edge
flags false and is_down as it was before the two calls. -/
theorem advanceFrame_twice_edges (thr : ℚ) (s : InputSystem) (hq : s.gamepad_queue = []) :
    (∀ (id : Int) (b : Button), s.button_map id = some b →
      ∃ b2 : Button,
        ((s.advanceFrameNoEvents thr).advanceFrameNoEvents thr).button_map id = some b2 ∧
        b2.went_down = false ∧ b2.went_up = false ∧ b2.is_down = b.is_down) ∧
    (∀ (i : Nat) (b : Button), s.pointer_buttons i = some b →
      ∃ b2 : Button,
        ((s.advanceFrameNoEvents thr).advanceFrameNoEvents thr).pointer_buttons i = some b2 ∧
        b2.went_down = false ∧ b2.went_up = false ∧ b2.is_down = b.is_down) ∧
    (∀ (id : Int) (j : Joystick), s.joystick_map id = some j →
      ∃ j2 : Joystick,
        ((s.advanceFrameNoEvents thr).advanceFrameNoEvents thr).joystick_map id = some j2 ∧
        j2.button_list = j.button_list.map (fun b => ⟨b.is_down, false, false⟩)) ∧
    (∀ (id : Int) (g : Gamepad), s.gamepad_map id = some g →
      ∃ g2 : Gamepad,
        ((s.advanceFrameNoEvents thr).advanceFrameNoEvents thr).gamepad_map id = some g2 ∧
        ∀ i : Int, g2.button_list i = ⟨(g.button_list i).is_down, false, false⟩) := by
  have h1m : (s.advanceFrameNoEvents thr).gamepad_map =
      fun k => (s.gamepad_map k).map Gamepad.advanceFrame := by
    show (handleGamepadEvents thr
        (fun k => (s.gamepad_map k).map Gamepad.advanceFrame) s.gamepad_queue).1 = _
    rw [hq]
    rfl
  have h1q : (s.advanceFrameNoEvents thr).gamepad_queue = [] := by
    show (handleGamepadEvents thr
        (fun k => (s.gamepad_map k).map Gamepad.advanceFrame) s.gamepad_queue).2 = []
    rw [hq]
    rfl
  have h2m : ((s.advanceFrameNoEvents thr).advanceFrameNoEvents thr).gamepad_map =
      fun k => ((s.gamepad_map k).map Gamepad.advanceFrame).map Gamepad.advanceFrame := by
    show (handleGamepadEvents thr
        (fun k => ((s.advanceFrameNoEvents thr).gamepad_map k).map Gamepad.advanceFrame)
        (s.advanceFrameNoEvents thr).gamepad_queue).1 = _
    rw [h1q, h1m]
    rfl
  refine ⟨?_, ?_, ?_, ?_⟩
  · intro id b hb
    refine ⟨⟨b.is_down, false, false⟩, ?_, rfl, rfl, rfl⟩
    show ((s.button_map id).map Button.advanceFrame).map Button.advanceFrame = _
    rw [hb]
    rfl
  · intro i b hb
    refine ⟨⟨b.is_down, false, false⟩, ?_, rfl, rfl, rfl⟩
    show ((s.pointer_buttons i).map Button.advanceFrame).map Button.advanceFrame = _
    rw [hb]
    rfl
  · intro id j hj
    refine ⟨(j.advanceFrame).advanceFrame, ?_, ?_⟩
    · show ((s.joystick_map id).map Joystick.advanceFrame).map Joystick.advanceFrame = _
      rw [hj]
      rfl
    · show (j.button_list.map Button.advanceFrame).map Button.advanceFrame = _
      rw [List.map_map]
      rfl
  · intro id g hg
    refine ⟨(g.advanceFrame).advanceFrame, ?_, fun i => rfl⟩
    rw [h2m]
    show ((s.gamepad_map id).map Gamepad.advanceFrame).map Gamepad.advanceFrame = _
    rw [hg]
    rfl

/-- A small populated InputSystem used by concrete witnesses: one keyboard
button, one joystick with one button, one gamepad. -/
def oneButtonSystem : InputSystem :=
  { emptyInputSystem with
      button_map := fun k => if k = 1 then some ⟨true, true, false⟩ else none,
      joystick_map := fun k =>
        if k = 2 then some ⟨some 4, [⟨true, false, true⟩], [], []⟩ else none,
      gamepad_map := fun k =>
        if k = 3 then some { Gamepad.init with controller_id := 3 } else none }

/-- Claim C8 witness: the double AdvanceFrame on the populated system, with
the hypotheses discharged concretely. -/
theorem advanceFrame_twice_edges_witness :
    (oneButtonSystem.gamepad_queue = [] ∧
      oneButtonSystem.button_map 1 = some ⟨true, true, false⟩ ∧
      oneButtonSystem.joystick_map 2 = some ⟨some 4, [⟨true, false, true⟩], [], []⟩) ∧
    (∃ b2 : Button,
      ((oneButtonSystem.advanceFrameNoEvents 0).advanceFrameNoEvents 0).button_map 1 =
          some b2 ∧
        b2.went_down = false ∧ b2.went_up = false ∧
        b2.is_down = (⟨true, true, false⟩ : Button).is_down) ∧
    (∃ j2 : Joystick,
      ((oneButtonSystem.advanceFrameNoEvents 0).advanceFrameNoEvents 0).joystick_map 2 =
          some j2 ∧
        j2.button_list =
          [(⟨true, false, true⟩ : Button)].map (fun b => ⟨b.is_down, false, false⟩)) :=
  ⟨⟨rfl, by simp [oneButtonSystem, emptyInputSystem], by simp [oneButtonSystem, emptyInputSystem]⟩,
   (advanceFrame_twice_edges 0 oneButtonSystem rfl).1 1 ⟨true, true, false⟩
     (by simp [oneButtonSystem, emptyInputSystem]),
   (advanceFrame_twice_edges 0 oneButtonSystem rfl).2.2.1 2 ⟨some 4, [⟨true, false, true⟩], [], []⟩
     (by simp [oneButtonSystem, emptyInputSystem])⟩

/-! ## Claim C9 -/

/-- Claim C9: GetButton is total: it always returns a Control, creating a
fresh zero-initialized one (and inserting it into the map) when the id was
never seen, and returning the stored one unchanged otherwise; GetJoystick,
by contrast, is a pure lookup whose assertion fails (modelled None) exactly
on ids absent from the joystick map, and it never inserts. -/
theorem query_surface_totality (s : InputSystem) (id jid : Int) :
    (s.button_map id = none →
      (s.GetButton id).1 = Button.init ∧
      (s.GetButton id).1.is_down = false ∧
      (s.GetButton id).1.went_down = false ∧
      (s.GetButton id).1.went_up = false ∧
      (s.GetButton id).2.button_map id = some Button.init) ∧
    (∀ b : Button, s.button_map id = some b → s.GetButton id = (b, s)) ∧
    (s.GetJoystick jid = s.joystick_map jid) ∧
    (s.joystick_map jid = none → s.GetJoystick jid = none) := by
  refine ⟨?_, ?_, rfl, fun h => h⟩
  · intro hnone
    simp [InputSystem.GetButton, hnone, Button.init]
  · intro b hb
    simp [InputSystem.GetButton, hb]

/-- Claim C9 witness: an unseen button id and an unknown joystick id on the
empty system, and a seen button id on the populated system. -/
theorem query_surface_totality_witness :
    (emptyInputSystem.button_map 42 = none ∧
      (emptyInputSystem.GetButton 42).1 = Button.init ∧
      (emptyInputSystem.GetButton 42).2.button_map 42 = some Button.init) ∧
    (emptyInputSystem.joystick_map 7 = none ∧ emptyInputSystem.GetJoystick 7 = none) ∧
    (oneButtonSystem.button_map 1 = some ⟨true, true, false⟩ ∧
      oneButtonSystem.GetButton 1 = (⟨true, true, false⟩, oneButtonSystem)) :=
  ⟨⟨rfl, ((query_surface_totality emptyInputSystem 42 7).1 rfl).1,
    ((query_surface_totality emptyInputSystem 42 7).1 rfl).2.2.2.2⟩,
   ⟨rfl, (query_surface_totality emptyInputSystem 42 7).2.2.2 rfl⟩,
   ⟨by simp [oneButtonSystem, emptyInputSystem],
    (query_surface_totality oneButtonSystem 1 7).2.1 ⟨true, true, false⟩
      (by simp [oneButtonSystem, emptyInputSystem])⟩⟩

/-! ## Touch drag handling -/

/-- SDL2 touch event type constants (SDL_events.h): SDL_FINGERDOWN 0x700,
SDL_FINGERUP 0x701, SDL_FINGERMOTION 0x702. -/
def SDL_FINGERDOWN : Nat := 1792

def SDL_FINGERUP : Nat := 1793

def SDL_FINGERMOTION : Nat := 1794

/-- SDL_TouchFingerEvent fields used by input.cpp: the touch device id,
the finger id, the normalized position and delta (floats, here rationals). -/
structure TouchFingerEvent where
  touchId : Int
  fingerId : Int
  x : ℚ
  y : ℚ
  dx : ℚ
  dy : ℚ
deriving DecidableEq

/-- The C cast of a float to int truncates toward zero; Int division in
Lean does the same, so this models the vec2i(...) casts. -/
def ratTruncInt (q : ℚ) : Int :=
  q.num / (q.den : Int)

/-- InputSystem::RemovePointer, input.cpp line 332: mark slot i free. -/
def RemovePointer (ps : List Pointer) (i : Nat) : List Pointer :=
  listModify (fun p => { p with used := false }) i ps

/-- InputSystem::FindPointer, input.cpp lines 334-349: first pass returns
the slot already holding this finger id; second pass claims the first free
slot, stamping the id and used; slot exhaustion is an assertion failure
(assert(0)) whose release behavior returns slot 0 with the table
unchanged. -/
def FindPointer (ps : List Pointer) (id : Int) : Nat × List Pointer :=
  match ps.findIdx? (fun p => p.used && p.id == id) with
  | some i => (i, ps)
  | none =>
      match ps.findIdx? (fun p => !p.used) with
      | some i => (i, listModify (fun p => { p with id := id, used := true }) i ps)
      | none => (0, ps)

/-- The body of the matching-finger branch of
InputSystem::UpdateDragPosition, input.cpp lines 362-371: resolve or
allocate the pointer slot, free it first on a finger-up, then write the
scaled position and accumulate the scaled delta into that slot. -/
def dragBody (e : TouchFingerEvent) (event_type : Nat) (window_size : Int × Int)
    (ps : List Pointer) : Nat × List Pointer :=
  let r := FindPointer ps e.fingerId
  let ps1 := if event_type = SDL_FINGERUP then RemovePointer r.2 r.1 else r.2
  let ps2 := listModify (fun p =>
      { p with
          mousepos := (ratTruncInt (e.x * (window_size.1 : ℚ)),
                       ratTruncInt (e.y * (window_size.2 : ℚ))),
          mousedelta := (p.mousedelta.1 + ratTruncInt (e.dx * (window_size.1 : ℚ)),
                         p.mousedelta.2 + ratTruncInt (e.dy * (window_size.2 : ℚ))) })
    r.1 ps1
  (r.1, ps2)

/-- InputSystem::UpdateDragPosition, input.cpp lines 351-374. The SDL
finger enumeration for the touch device (SDL_GetNumTouchFingers and
SDL_GetTouchFinger) is platform state, passed in as the list of current
finger ids. The C++ loop runs the body at the first enumerated finger
whose id equals the event finger id and returns; the body does not mention
the loop index, so the loop is a membership test; when no finger matches,
the loop falls through and returns 0 without touching any pointer. -/
def UpdateDragPosition (fingers : List Int) (e : TouchFingerEvent) (event_type : Nat)
    (window_size : Int × Int) (ps : List Pointer) : Nat × List Pointer :=
  if e.fingerId ∈ fingers then dragBody e event_type window_size ps else (0, ps)

/-- Modelled from the spec: GetPointerButton (input.h, not under src)
resolves an index in the pointer-button space of Controls (spec sections
4.3 and 6); Update then mutates that get-or-created Control in place, as
GetButton does for keyboard ids. -/
def InputSystem.updatePointerButton (s : InputSystem) (i : Nat) (down : Bool) : InputSystem :=
  { s with
      pointer_buttons := fun k =>
        if k = i then some (((s.pointer_buttons i).getD Button.init).update down)
        else s.pointer_buttons k }

/-- The SDL_FINGERDOWN case of the poll loop, input.cpp lines 143-147:
run UpdateDragPosition for the event and deliver Update(true) to the
pointer-button Control at the returned slot index. -/
def handleFingerDown (fingers : List Int) (e : TouchFingerEvent) (window_size : Int × Int)
    (s : InputSystem) : InputSystem :=
  let r := UpdateDragPosition fingers e SDL_FINGERDOWN window_size s.pointers
  InputSystem.updatePointerButton { s with pointers := r.2 } r.1 true

/-! ## Claim C10 -/

/-- Claim C10: when the platform finger enumeration holds no finger with
the event finger id, UpdateDragPosition returns slot 0 and leaves the
pointer table untouched; a finger-down event for such an untracked finger
therefore delivers its down transition to the pointer-button Control at
index 0, leaving every other pointer-button Control unchanged. -/
theorem untracked_finger_primary_slot (fingers : List Int) (e : TouchFingerEvent)
    (event_type : Nat) (window_size : Int × Int) (s : InputSystem)
    (hnf : e.fingerId ∉ fingers) :
    UpdateDragPosition fingers e event_type window_size s.pointers = (0, s.pointers) ∧
    (handleFingerDown fingers e window_size s).pointers = s.pointers ∧
    (handleFingerDown fingers e window_size s).pointer_buttons 0 =
      some (((s.pointer_buttons 0).getD Button.init).update true) ∧
    (∀ k : Nat, k ≠ 0 →
      (handleFingerDown fingers e window_size s).pointer_buttons k = s.pointer_buttons k) ∧
    (s.pointer_buttons 0 = none →
      (handleFingerDown fingers e window_size s).pointer_buttons 0 =
        some (Button.init.update true) ∧
      (Button.init.update true).went_down = true ∧
      (Button.init.update true).is_down = true) := by
  have hdrag : ∀ t : Nat,
      UpdateDragPosition fingers e t window_size s.pointers = (0, s.pointers) := by
    intro t
    simp [UpdateDragPosition, hnf]
  refine ⟨hdrag event_type, ?_, ?_, ?_, ?_⟩
  · simp [handleFingerDown, hdrag SDL_FINGERDOWN, InputSystem.updatePointerButton]
  · simp [handleFingerDown, hdrag SDL_FINGERDOWN, InputSystem.updatePointerButton]
  · intro k hk
    simp [handleFingerDown, hdrag SDL_FINGERDOWN, InputSystem.updatePointerButton, hk]
  · intro hpb
    refine ⟨?_, by decide, by decide⟩
    simp [handleFingerDown, hdrag SDL_FINGERDOWN, InputSystem.updatePointerButton, hpb]

/-- Claim C10 witness: a finger-down for finger id 5 while the platform
enumerates no fingers, on the empty system. -/
theorem untracked_finger_primary_slot_witness :
    ((5 : Int) ∉ ([] : List Int)) ∧
    UpdateDragPosition [] ⟨0, 5, 0, 0, 0, 0⟩ SDL_FINGERDOWN (100, 100)
        emptyInputSystem.pointers = (0, emptyInputSystem.pointers) ∧
    (handleFingerDown [] ⟨0, 5, 0, 0, 0, 0⟩ (100, 100) emptyInputSystem).pointer_buttons 0 =
      some (((emptyInputSystem.pointer_buttons 0).getD Button.init).update true) :=
  ⟨by simp,
   (untracked_finger_primary_slot [] ⟨0, 5, 0, 0, 0, 0⟩ SDL_FINGERDOWN (100, 100)
      emptyInputSystem (by simp)).1,
   (untracked_finger_primary_slot [] ⟨0, 5, 0, 0, 0, 0⟩ SDL_FINGERDOWN (100, 100)
      emptyInputSystem (by simp)).2.2.1⟩
